import Mathlib

/-!
Verification of `src/directives/marker.js` from pmcochrane/angularjs-google-maps.

The file shallowly embeds the directive's two units:

* `getMarker` — the marker factory (icon normalization, position default,
  legacy `zindex` bridge, marker construction, event wiring);
* `linkFunc` — the directive link behavior (address detection, marker
  registration, optional custom label construction, geocode scheduling,
  destroy handler).

JavaScript values are modelled by the inductive `JSValue`; JS objects are
association lists of string-keyed fields; JS exceptions (TypeError from a
property access on `undefined`/`null`) are modelled by `Except Unit`. JS
numbers are modelled by `Rat`: the code performs no arithmetic on them, it
only carries them, so IEEE rounding never becomes observable. Interactions
with the external map controller and scope are modelled as an `Effect`
trace.
-/

set_option autoImplicit false

/-- A JavaScript value as used by the marker directive. `point`, `size`,
`latLng` and `symbolPath` stand for the Google-SDK value classes
`google.maps.Point`, `google.maps.Size`, `google.maps.LatLng` and the
members of the `google.maps.SymbolPath` enumeration; the last is kept
abstract (indexed by the looked-up name) since its numeric values belong to
the external SDK. -/
inductive JSValue where
  | undef
  | null
  | bool (b : Bool)
  | num (q : Rat)
  | str (s : String)
  | arr (elems : List JSValue)
  | point (x y : JSValue)
  | size (width height : JSValue)
  | latLng (lat lng : Rat)
  | symbolPath (name : String)
  | obj (fields : List (String × JSValue))

/-- A JS object: an insertion-ordered association list of fields. -/
abbrev Obj := List (String × JSValue)

/-- Read a field of an object; a missing field reads as `undefined`. -/
def objGet (fields : Obj) (k : String) : JSValue :=
  match fields with
  | [] => .undef
  | (k', v) :: rest => if k' = k then v else objGet rest k

/-- Write a field of an object in place (JS assignment `o[k] = v`):
replace the first field with that key, or append a fresh one. -/
def objSet (fields : Obj) (k : String) (v : JSValue) : Obj :=
  match fields with
  | [] => [(k, v)]
  | (k', v') :: rest =>
      if k' = k then (k, v) :: rest else (k', v') :: objSet rest k v

/-- JS truthiness: `undefined`, `null`, `false`, `0` and `""` are falsy,
everything else here is truthy. -/
def truthy : JSValue → Bool
  | .undef => false
  | .null => false
  | .bool b => b
  | .num q => decide (q ≠ 0)
  | .str s => decide (s ≠ "")
  | _ => true

/-- `typeof v === "undefined"` as a Boolean discriminator. -/
def isUndef : JSValue → Bool
  | .undef => true
  | _ => false

/-- `v instanceof google.maps.LatLng` as a Boolean discriminator. -/
def isLatLng : JSValue → Bool
  | .latLng _ _ => true
  | _ => false

mutual

/-- JS string coercion `"" + v`. The `str` case is exact; the other cases
approximate `toString` of the host classes closely enough for the regex
check below (none of them can produce a non-empty string of uppercase
letters and underscores out of a non-string value used by this code). -/
def jsToString : JSValue → String
  | .undef => "undefined"
  | .null => "null"
  | .bool b => if b then "true" else "false"
  | .num q => toString q
  | .str s => s
  | .arr elems => String.intercalate "," (jsToStringList elems)
  | .point _ _ => "(point)"
  | .size _ _ => "(size)"
  | .latLng _ _ => "(latlng)"
  | .symbolPath n => "(symbolpath " ++ n ++ ")"
  | .obj _ => "[object Object]"

/-- String coercion of the elements of an array, in order (the comma join
of `Array.prototype.toString`). -/
def jsToStringList : List JSValue → List String
  | [] => []
  | v :: vs => jsToString v :: jsToStringList vs

end

/-- The regex `/^[A-Z_]+$/` of the source on a plain string: non-empty, and
every character an uppercase ASCII letter or an underscore. -/
def upperPattern (s : String) : Bool :=
  decide (s ≠ "") && s.data.all fun c => (decide ('A' ≤ c) && decide (c ≤ 'Z')) || c == '_'

/-- `(""+v).match(/^[A-Z_]+$/)` viewed as a Boolean. -/
def matchesUpperPattern (v : JSValue) : Bool :=
  upperPattern (jsToString v)

/-- `google.maps.SymbolPath[v]`: the enumeration lookup, kept abstract as a
`symbolPath` value tagged with the (string-coerced) key. -/
def symbolPathLookup (v : JSValue) : JSValue :=
  .symbolPath (jsToString v)

/-- JS element access `v[i]`. Accessing an element of `undefined` or `null`
throws a TypeError; an out-of-range index reads as `undefined`; a string
yields its `i`-th character as a one-character string; on a plain object
the numeric index is coerced to its string key, so `v[0]` reads the `"0"`
property; the remaining primitives and SDK values carry no numeric-keyed
own properties. -/
def jsIndex : JSValue → Nat → Except Unit JSValue
  | .undef, _ => .error ()
  | .null, _ => .error ()
  | .arr elems, i => .ok (elems.getD i .undef)
  | .str s, i =>
      .ok (match s.data.get? i with
           | some c => .str (String.mk [c])
           | none => .undef)
  | .obj fields, i => .ok (objGet fields (toString i))
  | _, _ => .ok (.undef)

/-- JS field access `v.k` for the fields this code reads. Accessing a field
of `undefined` or `null` throws a TypeError; the fields read here (`text`,
`color`, `fillColor`, …) are absent from the non-object values. -/
def getField : JSValue → String → Except Unit JSValue
  | .undef, _ => .error ()
  | .null, _ => .error ()
  | .obj fields, k => .ok (objGet fields k)
  | _, _ => .ok (.undef)

/-- JS `a || b`. -/
def jsOr (a b : JSValue) : JSValue :=
  if truthy a then a else b

/-! ### The marker factory (`getMarker`, marker.js lines 40–88) -/

/-- One step of the icon `for (var key in options.icon)` loop body:
`anchor`/`origin` values are replaced by `new google.maps.Point(arr[0], arr[1])`
and `size`/`scaledSize` values by `new google.maps.Size(arr[0], arr[1])`,
unconditionally — the source checks only the key name, never the value's
shape; every other key is left unchanged. -/
def coerceIconField (key : String) (v : JSValue) : Except Unit JSValue :=
  if key = "anchor" ∨ key = "origin" then do
    let a ← jsIndex v 0
    let b ← jsIndex v 1
    pure (.point a b)
  else if key = "size" ∨ key = "scaledSize" then do
    let a ← jsIndex v 0
    let b ← jsIndex v 1
    pure (.size a b)
  else pure v

/-- The whole icon key loop, over the fields in insertion order; the first
throwing coercion aborts the loop, as in JS. -/
def coerceIconFields : Obj → Except Unit Obj
  | [] => .ok []
  | (k, v) :: rest =>
      match coerceIconField k v with
      | .error e => .error e
      | .ok v' =>
          match coerceIconFields rest with
          | .error e => .error e
          | .ok rest' => .ok ((k, v') :: rest')

/-- The `icon.path` substitution that precedes the key loop:
`if ((""+options.icon.path).match(/^[A-Z_]+$/)) options.icon.path = google.maps.SymbolPath[options.icon.path]`. -/
def substitutePath (iconFields : Obj) : Obj :=
  if matchesUpperPattern (objGet iconFields "path") then
    objSet iconFields "path" (symbolPathLookup (objGet iconFields "path"))
  else iconFields

/-- The `if (options.icon instanceof Object)` block. Besides plain objects,
`instanceof Object` also holds of arrays and SDK class instances, but on
those the loop is a no-op (their own keys are numeric indices or `x`/`y`
etc., never `anchor`/`origin`/`size`/`scaledSize`, and their `path` is
`undefined`), so they pass through unchanged here as in the source. -/
def normalizeIcon (options : Obj) : Except Unit Obj :=
  match objGet options "icon" with
  | .obj iconFields =>
      match coerceIconFields (substitutePath iconFields) with
      | .ok fs => .ok (objSet options "icon" (.obj fs))
      | .error e => .error e
  | _ => .ok options

/-- `if (!(options.position instanceof google.maps.LatLng)) options.position = new google.maps.LatLng(0,0)`. -/
def defaultPosition (options : Obj) : Obj :=
  if isLatLng (objGet options "position") then options
  else objSet options "position" (.latLng 0 0)

/-- The legacy z-index bridge. The source tests
`typeof options.zIndex === "undefined"` twice (a duplicated conjunct kept
here) and `typeof options.zindex !== "undefined"`, then copies
`options.zindex` into `options.zIndex`. -/
def bridgeZIndex (options : Obj) : Obj :=
  if isUndef (objGet options "zIndex") && isUndef (objGet options "zIndex")
      && !isUndef (objGet options "zindex") then
    objSet options "zIndex" (objGet options "zindex")
  else options

/-- The live marker: `new google.maps.Marker(options)` copies the finalized
options onto the marker (MVCObject `setValues`), and the event loop attaches
one listener per truthy event name. Callbacks are opaque and identified by a
number. -/
structure Marker where
  values : Obj
  listeners : List (String × Nat)

/-- Read a marker property (`marker.zIndex`, `marker.icon`, …). -/
def markerGet (m : Marker) (k : String) : JSValue :=
  objGet m.values k

/-- The marker factory `getMarker(options, events)` of marker.js:
normalize the icon, default the position, bridge the legacy `zindex`,
construct the marker, and register each listener whose event name is truthy
(`if (eventName)` skips only the empty name). -/
def getMarker (options : Obj) (events : List (String × Nat)) : Except Unit Marker :=
  match normalizeIcon options with
  | .error e => .error e
  | .ok o1 =>
      let o2 := defaultPosition o1
      let o3 := bridgeZIndex o2
      .ok { values := o3
            listeners := events.filter fun ev => decide (ev.1 ≠ "") }

/-! ### The directive link behavior (`linkFunc`, marker.js lines 90–136) -/

/-- One observable interaction with the external collaborators (map
controller, scope evaluation): the `Effect` trace of a link. -/
inductive Effect where
  | addObject (collection : String) (m : Marker)
  | geocodeCall (address : JSValue)
  | setPosition (latlng : Rat × Rat)
  | zoomToIncludeMarkers
  | evalGeoCallback (expr : String)
  | observeAttrSetObj
  | deleteObject (collection : String) (m : Marker)

/-- The option object handed to `new MarkerLabel(...)` in the customlabel
branch of `linkFunc` (stored by `setValues`). The `map` and `marker`
back-references carry no logic of their own and are omitted. -/
structure MarkerLabel where
  text : JSValue
  color : JSValue
  fillColor : JSValue
  fillOpacity : JSValue
  strokeColor : JSValue
  strokeWeight : JSValue
  zIndex : JSValue
  backgroundColor : JSValue

/-- The customlabel branch: each field access on `markerOptions.customlabel`
and the access `marker.icon.fillColor` can throw (on `undefined`/`null`),
and every supplied-or-default choice is the JS `||`. -/
def mkMarkerLabel (customlabel : JSValue) (marker : Marker) : Except Unit MarkerLabel := do
  let text ← getField customlabel "text"
  let color ← getField customlabel "color"
  let fillColor ← getField customlabel "fillColor"
  let fillOpacity ← getField customlabel "fillOpacity"
  let strokeColor ← getField customlabel "strokeColor"
  let strokeWeight ← getField customlabel "strokeWeight"
  let iconFillColor ← getField (markerGet marker "icon") "fillColor"
  pure { text := text
         color := jsOr color (.str "#000000")
         fillColor := jsOr fillColor (.str "#ffffff")
         fillOpacity := jsOr fillOpacity (.num 1)
         strokeColor := jsOr strokeColor (.str "#ffffff")
         strokeWeight := jsOr strokeWeight (.num 1)
         zIndex := jsOr (markerGet marker "zIndex") (.str "auto")
         backgroundColor := jsOr iconFillColor (.str "transparent") }

/-- The outcome of a successful link: the live marker, its optional label,
the synchronous effect trace of the link itself, the effects the geocode
then-callback would perform at a resolved coordinate (empty when no geocode
was scheduled), and the effects of the `$destroy` handler. -/
structure LinkResult where
  marker : Marker
  label : Option MarkerLabel
  linkEffects : List Effect
  onGeocodeResolved : Rat × Rat → List Effect
  destroyEffects : List Effect

/-- The address remembered at the start of the link, before `getMarker`
overwrites `position`: the raw `markerOptions.position` unless it is
already a `LatLng`. -/
def pendingAddress (markerOptions : Obj) : JSValue :=
  if isLatLng (objGet markerOptions "position") then .undef
  else objGet markerOptions "position"

/-- The synchronous interactions of a link with the map controller, in
source order: `addObject('markers', marker)`, then — only when the
remembered address is truthy (`if (address)`) — the `getGeoLocation` call,
then `observeAttrSetObj`. -/
def linkEffectsOf (address : JSValue) (marker : Marker) : List Effect :=
  [.addObject "markers" marker]
    ++ (if truthy address then [.geocodeCall address] else [])
    ++ [.observeAttrSetObj]

/-- The body of the `getGeoLocation(address).then(...)` callback at a
resolved coordinate: `marker.setPosition(latlng)`,
`mapController.zoomToIncludeMarkers()`, and
`geoCallback && $parse(geoCallback)(scope)` — the expression is evaluated
only when the attribute was supplied and its text is truthy (non-empty).
When no geocode was scheduled the callback never runs: empty trace. -/
def geocodeResolvedEffects (address : JSValue) (geoCallback : Option String)
    (ll : Rat × Rat) : List Effect :=
  if truthy address then
    [.setPosition ll, .zoomToIncludeMarkers]
      ++ (match geoCallback with
          | some expr => if expr ≠ "" then [.evalGeoCallback expr] else []
          | none => [])
  else []

/-- The directive link function of marker.js, after the external attribute
parser has produced `markerOptions` and `markerEvents` and with the
`geo-callback` attribute (absent or its expression text) as `geoCallback`:
remember `markerOptions.position` as a pending address when it is not a
`LatLng` (before `getMarker` overwrites it); build the marker and register
it (`addObject('markers', marker)`); when
`typeof markerOptions.customlabel !== "undefined"`, construct the label
overlay; when the remembered address is truthy (`if (address)`), call
`getGeoLocation(address)`; register attribute observers and bind one
`$destroy` handler doing `deleteObject('markers', marker)`. -/
def linkFunc (markerOptions : Obj) (markerEvents : List (String × Nat))
    (geoCallback : Option String) : Except Unit LinkResult :=
  let address : JSValue := pendingAddress markerOptions
  match getMarker markerOptions markerEvents with
  | .error e => .error e
  | .ok marker =>
      let labelRes : Except Unit (Option MarkerLabel) :=
        if isUndef (markerGet marker "customlabel") then .ok none
        else
          match mkMarkerLabel (markerGet marker "customlabel") marker with
          | .error e => .error e
          | .ok l => .ok (some l)
      match labelRes with
      | .error e => .error e
      | .ok label =>
          .ok { marker := marker
                label := label
                linkEffects := linkEffectsOf address marker
                onGeocodeResolved := geocodeResolvedEffects address geoCallback
                destroyEffects := [.deleteObject "markers" marker] }

/-! ### Basic lemmas about the object model -/

theorem objGet_nil (k : String) : objGet [] k = .undef := rfl

theorem objGet_objSet_self (fs : Obj) (k : String) (v : JSValue) :
    objGet (objSet fs k v) k = v := by
  induction fs with
  | nil => simp [objSet, objGet]
  | cons p rest ih =>
      obtain ⟨k0, v0⟩ := p
      by_cases h : k0 = k <;> simp [objSet, objGet, h, ih]

theorem objGet_objSet_ne (fs : Obj) (k k' : String) (v : JSValue) (h : k ≠ k') :
    objGet (objSet fs k v) k' = objGet fs k' := by
  induction fs with
  | nil => simp [objSet, objGet, h]
  | cons p rest ih =>
      obtain ⟨k0, v0⟩ := p
      by_cases hk : k0 = k
      · subst hk
        simp [objSet, objGet, h]
      · simp [objSet, objGet, hk, ih]

theorem exceptOkBind {α β : Type} (a : α) (f : α → Except Unit β) :
    (Except.ok a >>= f : Except Unit β) = f a := rfl

/-! ### Lemmas about the factory pipeline steps -/

theorem defaultPosition_objGet_ne (o : Obj) (k : String) (h : k ≠ "position") :
    objGet (defaultPosition o) k = objGet o k := by
  unfold defaultPosition
  split
  · rfl
  · exact objGet_objSet_ne o "position" k _ (fun he => h he.symm)

theorem defaultPosition_objGet_pos (o : Obj) (h : isLatLng (objGet o "position") = false) :
    objGet (defaultPosition o) "position" = .latLng 0 0 := by
  unfold defaultPosition
  rw [h]
  simp [objGet_objSet_self]

theorem bridgeZIndex_objGet_ne (o : Obj) (k : String) (h : k ≠ "zIndex") :
    objGet (bridgeZIndex o) k = objGet o k := by
  unfold bridgeZIndex
  split
  · exact objGet_objSet_ne o "zIndex" k _ (fun he => h he.symm)
  · rfl

theorem bridgeZIndex_objGet_bridged (o : Obj)
    (h1 : isUndef (objGet o "zIndex") = true) (h2 : isUndef (objGet o "zindex") = false) :
    objGet (bridgeZIndex o) "zIndex" = objGet o "zindex" := by
  unfold bridgeZIndex
  rw [h1, h2]
  simp [objGet_objSet_self]

theorem normalizeIcon_objGet_ne (o o' : Obj) (k : String)
    (h : normalizeIcon o = .ok o') (hk : k ≠ "icon") :
    objGet o' k = objGet o k := by
  unfold normalizeIcon at h
  split at h
  · split at h
    · cases h
      exact objGet_objSet_ne o "icon" k _ (fun he => hk he.symm)
    · cases h
  · cases h
    rfl

theorem normalizeIcon_icon_obj (o o' : Obj) (iconFields : Obj)
    (hi : objGet o "icon" = .obj iconFields) (h : normalizeIcon o = .ok o') :
    ∃ fs, coerceIconFields (substitutePath iconFields) = .ok fs ∧
      objGet o' "icon" = .obj fs := by
  unfold normalizeIcon at h
  split at h
  next iconFields' heq =>
    rw [hi] at heq
    injection heq with heq'
    subst heq'
    split at h
    next fs heq2 =>
      cases h
      exact ⟨fs, heq2, objGet_objSet_self o "icon" _⟩
    next => cases h
  next hne =>
    exact absurd hi (hne iconFields)

theorem coerceIconFields_objGet (fs fs' : Obj)
    (h : coerceIconFields fs = .ok fs') (k : String) :
    (objGet fs k = .undef ∧ objGet fs' k = .undef) ∨
      coerceIconField k (objGet fs k) = .ok (objGet fs' k) := by
  induction fs generalizing fs' with
  | nil =>
      cases h
      exact .inl ⟨rfl, rfl⟩
  | cons p rest ih =>
      obtain ⟨k0, v0⟩ := p
      unfold coerceIconFields at h
      split at h
      · cases h
      next v' hv =>
        split at h
        · cases h
        next rest' hr =>
          cases h
          by_cases hk : k0 = k
          · subst hk
            right
            simpa [objGet] using hv
          · simpa [objGet, hk] using ih rest' hr

/-! ### Destructuring lemmas for the factory and the link -/

theorem getMarker_ok (options : Obj) (events : List (String × Nat)) (m : Marker)
    (h : getMarker options events = .ok m) :
    ∃ o1, normalizeIcon options = .ok o1 ∧
      m.values = bridgeZIndex (defaultPosition o1) ∧
      m.listeners = events.filter (fun ev => decide (ev.1 ≠ "")) := by
  unfold getMarker at h
  split at h
  · cases h
  next o1 heq =>
    cases h
    exact ⟨o1, heq, rfl, rfl⟩

theorem linkFunc_ok_parts (markerOptions : Obj) (markerEvents : List (String × Nat))
    (geoCallback : Option String) (r : LinkResult)
    (h : linkFunc markerOptions markerEvents geoCallback = .ok r) :
    getMarker markerOptions markerEvents = .ok r.marker ∧
      r.linkEffects = linkEffectsOf (pendingAddress markerOptions) r.marker ∧
      r.onGeocodeResolved = geocodeResolvedEffects (pendingAddress markerOptions) geoCallback ∧
      r.destroyEffects = [.deleteObject "markers" r.marker] ∧
      (isUndef (markerGet r.marker "customlabel") = true → r.label = none) ∧
      (isUndef (markerGet r.marker "customlabel") = false →
        ∃ l, mkMarkerLabel (markerGet r.marker "customlabel") r.marker = .ok l ∧
          r.label = some l) := by
  unfold linkFunc at h
  split at h
  · cases h
  next marker heq =>
    by_cases hcl : isUndef (markerGet marker "customlabel") = true
    · rw [if_pos hcl] at h
      cases h
      refine ⟨heq, rfl, rfl, rfl, fun _ => rfl, fun hc => ?_⟩
      rw [hcl] at hc
      cases hc
    · rw [if_neg hcl] at h
      split at h
      · cases h
      next l hl =>
        cases h
        exact ⟨heq, rfl, rfl, rfl, fun hc => absurd hc hcl,
          fun _ => ⟨l, hl, rfl⟩⟩

theorem jsToString_str (s : String) : jsToString (.str s) = s := rfl

theorem exceptPureOk {α : Type} (a : α) : (pure a : Except Unit α) = .ok a := rfl

theorem substitutePath_objGet_ne (fs : Obj) (k : String) (h : k ≠ "path") :
    objGet (substitutePath fs) k = objGet fs k := by
  unfold substitutePath
  split
  · exact objGet_objSet_ne fs "path" k _ (fun he => h he.symm)
  · rfl

theorem defaultPosition_of_latLng (o : Obj) (h : isLatLng (objGet o "position") = true) :
    defaultPosition o = o := by
  unfold defaultPosition
  rw [h]
  simp

theorem bridgeZIndex_noop_of_zindex_undef (o : Obj)
    (h : isUndef (objGet o "zindex") = true) :
    bridgeZIndex o = o := by
  unfold bridgeZIndex
  rw [h]
  simp

theorem coerceIconField_other (k : String) (v : JSValue)
    (h1 : k ≠ "anchor") (h2 : k ≠ "origin") (h3 : k ≠ "size") (h4 : k ≠ "scaledSize") :
    coerceIconField k v = .ok v := by
  unfold coerceIconField
  rw [if_neg (by simp [h1, h2]), if_neg (by simp [h3, h4])]
  rfl

/-- The marker factory leaves every key other than `icon`, `position` and
`zIndex` of the options object untouched. -/
theorem getMarker_objGet_other (options : Obj) (events : List (String × Nat)) (m : Marker)
    (hm : getMarker options events = .ok m) (k : String)
    (h1 : k ≠ "icon") (h2 : k ≠ "position") (h3 : k ≠ "zIndex") :
    markerGet m k = objGet options k := by
  obtain ⟨o1, hni, hv, -⟩ := getMarker_ok options events m hm
  unfold markerGet
  rw [hv, bridgeZIndex_objGet_ne _ k h3, defaultPosition_objGet_ne _ k h2,
    normalizeIcon_objGet_ne options o1 k hni h1]

/-- Shared core of the position-default behavior: whenever the incoming
`position` is not a `LatLng`, the constructed marker's position is the
origin. -/
theorem getMarker_position_origin (options : Obj) (events : List (String × Nat)) (m : Marker)
    (hpos : isLatLng (objGet options "position") = false)
    (hm : getMarker options events = .ok m) :
    markerGet m "position" = .latLng 0 0 := by
  obtain ⟨o1, hni, hv, -⟩ := getMarker_ok options events m hm
  have h1 : objGet o1 "position" = objGet options "position" :=
    normalizeIcon_objGet_ne options o1 "position" hni (by decide)
  unfold markerGet
  rw [hv, bridgeZIndex_objGet_ne _ "position" (by decide),
    defaultPosition_objGet_pos o1 (by rw [h1]; exact hpos)]

/-! ### C5 — position default -/

/-- C5: for every options object whose `position` field is absent or not a
resolved coordinate (`LatLng`) value, the marker constructed by the marker
factory has initial position `(0, 0)`. -/
theorem C5_position_defaults_to_origin (options : Obj) (events : List (String × Nat))
    (m : Marker) (hpos : isLatLng (objGet options "position") = false)
    (hm : getMarker options events = .ok m) :
    markerGet m "position" = .latLng 0 0 :=
  getMarker_position_origin options events m hpos hm

/-- C5 witness: linking with no options at all (position absent) yields a
marker at the origin. -/
theorem C5_position_defaults_to_origin_witness :
    isLatLng (objGet [] "position") = false ∧
      getMarker [] [] = .ok { values := [("position", .latLng 0 0)], listeners := [] } ∧
      markerGet { values := [("position", .latLng 0 0)], listeners := [] } "position" =
        .latLng 0 0 :=
  ⟨rfl, rfl, C5_position_defaults_to_origin [] [] _ rfl rfl⟩

/-! ### C8 — legacy `zindex` bridge -/

/-- C8: for every options object whose canonical `zIndex` field is unset and
whose legacy lowercase `zindex` field is set to `v`, the constructed
marker's z-index equals `v`. -/
theorem C8_legacy_zindex_bridge (options : Obj) (events : List (String × Nat))
    (m : Marker) (v : JSValue)
    (h1 : isUndef (objGet options "zIndex") = true)
    (h2 : objGet options "zindex" = v) (h3 : isUndef v = false)
    (hm : getMarker options events = .ok m) :
    markerGet m "zIndex" = v := by
  obtain ⟨o1, hni, hv, -⟩ := getMarker_ok options events m hm
  have e1 : objGet (defaultPosition o1) "zIndex" = objGet options "zIndex" := by
    rw [defaultPosition_objGet_ne _ _ (by decide),
      normalizeIcon_objGet_ne options o1 _ hni (by decide)]
  have e2 : objGet (defaultPosition o1) "zindex" = v := by
    rw [defaultPosition_objGet_ne _ _ (by decide),
      normalizeIcon_objGet_ne options o1 _ hni (by decide), h2]
  unfold markerGet
  rw [hv, bridgeZIndex_objGet_bridged _ (by rw [e1]; exact h1) (by rw [e2]; exact h3), e2]

/-- C8 witness: `zindex: 9` with no canonical `zIndex` gives a marker whose
`zIndex` is `9`. -/
theorem C8_legacy_zindex_bridge_witness :
    isUndef (objGet [("zindex", .num 9)] "zIndex") = true ∧
      objGet [("zindex", .num 9)] "zindex" = .num 9 ∧
      isUndef (.num 9 : JSValue) = false ∧
      getMarker [("zindex", .num 9)] [] =
        .ok { values := [("zindex", .num 9), ("position", .latLng 0 0), ("zIndex", .num 9)],
              listeners := [] } ∧
      markerGet { values := [("zindex", .num 9), ("position", .latLng 0 0), ("zIndex", .num 9)],
                  listeners := [] } "zIndex" = .num 9 :=
  ⟨rfl, rfl, rfl, rfl, C8_legacy_zindex_bridge [("zindex", .num 9)] [] _ (.num 9) rfl rfl rfl rfl⟩

/-! ### Icon sub-field lemmas shared by C6, C7 and C2 -/

theorem markerGet_icon_obj (options : Obj) (events : List (String × Nat)) (m : Marker)
    (iconFields : Obj) (hicon : objGet options "icon" = .obj iconFields)
    (hm : getMarker options events = .ok m) :
    ∃ fs, coerceIconFields (substitutePath iconFields) = .ok fs ∧
      markerGet m "icon" = .obj fs := by
  obtain ⟨o1, hni, hv, -⟩ := getMarker_ok options events m hm
  obtain ⟨fs, hco, hio1⟩ := normalizeIcon_icon_obj options o1 iconFields hicon hni
  refine ⟨fs, hco, ?_⟩
  unfold markerGet
  rw [hv, bridgeZIndex_objGet_ne _ _ (by decide),
    defaultPosition_objGet_ne _ _ (by decide), hio1]

theorem coerceIconFields_objGet_of_ne_undef (iconFields fs : Obj) (k : String)
    (hco : coerceIconFields (substitutePath iconFields) = .ok fs) (hk : k ≠ "path")
    (hne : isUndef (objGet iconFields k) = false) :
    coerceIconField k (objGet iconFields k) = .ok (objGet fs k) := by
  have hs := substitutePath_objGet_ne iconFields k hk
  rcases coerceIconFields_objGet _ _ hco k with ⟨h1, -⟩ | h2
  · rw [hs] at h1
    rw [h1] at hne
    cases hne
  · rwa [hs] at h2

/-! ### C6 — symbol path constant substitution -/

/-- C6: for every icon object whose `path` field is a string matching the
all-uppercase-with-underscores pattern, the constructed marker's icon path
equals the SDK symbol-path enumeration constant named by that string; every
other string path passes through unchanged. -/
theorem C6_symbol_path_substitution (options : Obj) (events : List (String × Nat))
    (m : Marker) (iconFields : Obj) (s : String)
    (hicon : objGet options "icon" = .obj iconFields)
    (hpath : objGet iconFields "path" = .str s)
    (hm : getMarker options events = .ok m) :
    ∃ fs, markerGet m "icon" = .obj fs ∧
      objGet fs "path" = (if upperPattern s then .symbolPath s else .str s) := by
  obtain ⟨fs, hco, hmi⟩ := markerGet_icon_obj options events m iconFields hicon hm
  refine ⟨fs, hmi, ?_⟩
  have hsub : objGet (substitutePath iconFields) "path" =
      (if upperPattern s then .symbolPath s else .str s) := by
    unfold substitutePath
    by_cases hup : upperPattern s = true
    · rw [if_pos (by rw [hpath]; simpa [matchesUpperPattern, jsToString_str] using hup)]
      rw [objGet_objSet_self, hpath, if_pos hup]
      rfl
    · rw [if_neg (by rw [hpath]; simpa [matchesUpperPattern, jsToString_str] using hup)]
      rw [hpath, if_neg hup]
  rcases coerceIconFields_objGet _ _ hco "path" with ⟨h1, -⟩ | h2
  · rw [hsub] at h1
    by_cases hup : upperPattern s = true
    · rw [if_pos hup] at h1
      cases h1
    · rw [if_neg hup] at h1
      cases h1
  · rw [coerceIconField_other _ _ (by decide) (by decide) (by decide) (by decide)] at h2
    injection h2 with h3
    rw [← h3, hsub]

/-- C6 witness: `icon.path = "CIRCLE"` becomes the `SymbolPath` constant
named `CIRCLE`. -/
theorem C6_symbol_path_substitution_witness :
    objGet [("icon", .obj [("path", .str "CIRCLE")])] "icon" = .obj [("path", .str "CIRCLE")] ∧
      objGet [("path", .str "CIRCLE")] "path" = .str "CIRCLE" ∧
      getMarker [("icon", .obj [("path", .str "CIRCLE")])] [] =
        .ok { values := [("icon", .obj [("path", .symbolPath "CIRCLE")]),
                         ("position", .latLng 0 0)], listeners := [] } ∧
      ∃ fs, markerGet { values := [("icon", .obj [("path", .symbolPath "CIRCLE")]),
                                   ("position", .latLng 0 0)], listeners := [] } "icon" = .obj fs ∧
        objGet fs "path" =
          (if upperPattern "CIRCLE" then .symbolPath "CIRCLE" else .str "CIRCLE") :=
  ⟨rfl, rfl, rfl,
    C6_symbol_path_substitution [("icon", .obj [("path", .str "CIRCLE")])] []
      { values := [("icon", .obj [("path", .symbolPath "CIRCLE")]),
                   ("position", .latLng 0 0)], listeners := [] }
      [("path", .str "CIRCLE")] "CIRCLE" rfl rfl rfl⟩

theorem coerceIconField_anchor_origin (k : String) (v a b : JSValue)
    (hk : k = "anchor" ∨ k = "origin")
    (h0 : jsIndex v 0 = .ok a) (h1 : jsIndex v 1 = .ok b) :
    coerceIconField k v = .ok (.point a b) := by
  unfold coerceIconField
  rw [if_pos hk, h0, exceptOkBind, h1, exceptOkBind]
  rfl

theorem coerceIconField_size_scaledSize (k : String) (v a b : JSValue)
    (hk : k = "size" ∨ k = "scaledSize")
    (hk' : ¬(k = "anchor" ∨ k = "origin"))
    (h0 : jsIndex v 0 = .ok a) (h1 : jsIndex v 1 = .ok b) :
    coerceIconField k v = .ok (.size a b) := by
  unfold coerceIconField
  rw [if_neg hk', if_pos hk, h0, exceptOkBind, h1, exceptOkBind]
  rfl

theorem jsIndex_not_undef (v : JSValue) (i : Nat) (a : JSValue)
    (h : jsIndex v i = .ok a) : isUndef v = false := by
  cases v <;> first | rfl | cases h

/-! ### C7 — anchor/origin to point, size/scaledSize to dimension -/

/-- C7: for every icon sub-field named `anchor` or `origin` given as a
two-element numeric pair `[x, y]`, the marker factory replaces it with a
point whose coordinates are the pair's elements; for every sub-field named
`size` or `scaledSize` given as `[w, h]`, it replaces it with a dimension
value of width `w` and height `h`. -/
theorem C7_icon_pair_coercion (options : Obj) (events : List (String × Nat))
    (m : Marker) (iconFields : Obj)
    (hicon : objGet options "icon" = .obj iconFields)
    (hm : getMarker options events = .ok m) :
    ∃ fs, markerGet m "icon" = .obj fs ∧
      (∀ x y : Rat, objGet iconFields "anchor" = .arr [.num x, .num y] →
        objGet fs "anchor" = .point (.num x) (.num y)) ∧
      (∀ x y : Rat, objGet iconFields "origin" = .arr [.num x, .num y] →
        objGet fs "origin" = .point (.num x) (.num y)) ∧
      (∀ w h : Rat, objGet iconFields "size" = .arr [.num w, .num h] →
        objGet fs "size" = .size (.num w) (.num h)) ∧
      (∀ w h : Rat, objGet iconFields "scaledSize" = .arr [.num w, .num h] →
        objGet fs "scaledSize" = .size (.num w) (.num h)) := by
  obtain ⟨fs, hco, hmi⟩ := markerGet_icon_obj options events m iconFields hicon hm
  refine ⟨fs, hmi, ?_, ?_, ?_, ?_⟩
  · intro x y hval
    have h := coerceIconFields_objGet_of_ne_undef iconFields fs "anchor" hco (by decide)
      (by rw [hval]; rfl)
    rw [hval, coerceIconField_anchor_origin "anchor" (.arr [.num x, .num y])
      (.num x) (.num y) (.inl rfl) rfl rfl] at h
    injection h with h'
    exact h'.symm
  · intro x y hval
    have h := coerceIconFields_objGet_of_ne_undef iconFields fs "origin" hco (by decide)
      (by rw [hval]; rfl)
    rw [hval, coerceIconField_anchor_origin "origin" (.arr [.num x, .num y])
      (.num x) (.num y) (.inr rfl) rfl rfl] at h
    injection h with h'
    exact h'.symm
  · intro w h hval
    have h2 := coerceIconFields_objGet_of_ne_undef iconFields fs "size" hco (by decide)
      (by rw [hval]; rfl)
    rw [hval, coerceIconField_size_scaledSize "size" (.arr [.num w, .num h])
      (.num w) (.num h) (.inl rfl) (by simp) rfl rfl] at h2
    injection h2 with h'
    exact h'.symm
  · intro w h hval
    have h2 := coerceIconFields_objGet_of_ne_undef iconFields fs "scaledSize" hco (by decide)
      (by rw [hval]; rfl)
    rw [hval, coerceIconField_size_scaledSize "scaledSize" (.arr [.num w, .num h])
      (.num w) (.num h) (.inr rfl) (by simp) rfl rfl] at h2
    injection h2 with h'
    exact h'.symm

/-- C7 witness: all four sub-fields given as pairs are converted. -/
theorem C7_icon_pair_coercion_witness :
    objGet [("icon", .obj [("anchor", .arr [.num 1, .num 2]),
                           ("origin", .arr [.num 3, .num 4]),
                           ("size", .arr [.num 5, .num 6]),
                           ("scaledSize", .arr [.num 7, .num 8])])] "icon" =
        .obj [("anchor", .arr [.num 1, .num 2]), ("origin", .arr [.num 3, .num 4]),
              ("size", .arr [.num 5, .num 6]), ("scaledSize", .arr [.num 7, .num 8])] ∧
      getMarker [("icon", .obj [("anchor", .arr [.num 1, .num 2]),
                                ("origin", .arr [.num 3, .num 4]),
                                ("size", .arr [.num 5, .num 6]),
                                ("scaledSize", .arr [.num 7, .num 8])])] [] =
        .ok { values := [("icon", .obj [("anchor", .point (.num 1) (.num 2)),
                                        ("origin", .point (.num 3) (.num 4)),
                                        ("size", .size (.num 5) (.num 6)),
                                        ("scaledSize", .size (.num 7) (.num 8))]),
                         ("position", .latLng 0 0)], listeners := [] } ∧
      ∃ fs, markerGet { values := [("icon", .obj [("anchor", .point (.num 1) (.num 2)),
                                                  ("origin", .point (.num 3) (.num 4)),
                                                  ("size", .size (.num 5) (.num 6)),
                                                  ("scaledSize", .size (.num 7) (.num 8))]),
                                   ("position", .latLng 0 0)], listeners := [] } "icon" =
          .obj fs ∧
        (∀ x y : Rat,
          objGet [("anchor", .arr [.num 1, .num 2]), ("origin", .arr [.num 3, .num 4]),
                  ("size", .arr [.num 5, .num 6]), ("scaledSize", .arr [.num 7, .num 8])]
            "anchor" = .arr [.num x, .num y] →
          objGet fs "anchor" = .point (.num x) (.num y)) ∧
        (∀ x y : Rat,
          objGet [("anchor", .arr [.num 1, .num 2]), ("origin", .arr [.num 3, .num 4]),
                  ("size", .arr [.num 5, .num 6]), ("scaledSize", .arr [.num 7, .num 8])]
            "origin" = .arr [.num x, .num y] →
          objGet fs "origin" = .point (.num x) (.num y)) ∧
        (∀ w h : Rat,
          objGet [("anchor", .arr [.num 1, .num 2]), ("origin", .arr [.num 3, .num 4]),
                  ("size", .arr [.num 5, .num 6]), ("scaledSize", .arr [.num 7, .num 8])]
            "size" = .arr [.num w, .num h] →
          objGet fs "size" = .size (.num w) (.num h)) ∧
        (∀ w h : Rat,
          objGet [("anchor", .arr [.num 1, .num 2]), ("origin", .arr [.num 3, .num 4]),
                  ("size", .arr [.num 5, .num 6]), ("scaledSize", .arr [.num 7, .num 8])]
            "scaledSize" = .arr [.num w, .num h] →
          objGet fs "scaledSize" = .size (.num w) (.num h)) :=
  ⟨rfl, rfl,
    C7_icon_pair_coercion
      [("icon", .obj [("anchor", .arr [.num 1, .num 2]), ("origin", .arr [.num 3, .num 4]),
                      ("size", .arr [.num 5, .num 6]), ("scaledSize", .arr [.num 7, .num 8])])]
      []
      { values := [("icon", .obj [("anchor", .point (.num 1) (.num 2)),
                                  ("origin", .point (.num 3) (.num 4)),
                                  ("size", .size (.num 5) (.num 6)),
                                  ("scaledSize", .size (.num 7) (.num 8))]),
                   ("position", .latLng 0 0)], listeners := [] }
      [("anchor", .arr [.num 1, .num 2]), ("origin", .arr [.num 3, .num 4]),
       ("size", .arr [.num 5, .num 6]), ("scaledSize", .arr [.num 7, .num 8])]
      rfl rfl⟩

/-! ### C2 — malformed icon sub-fields are NOT left unchanged -/

/-- C2 counterexample: the icon sub-field `anchor: 5` does not have the
expected two-element numeric pair shape, yet the marker factory does not
leave it unchanged — it becomes `Point(undefined, undefined)`, because the
source coerces on the key name alone. -/
theorem C2_counterexample_anchor_not_left_unchanged :
    getMarker [("icon", .obj [("anchor", .num 5)])] [] =
        .ok { values := [("icon", .obj [("anchor", .point .undef .undef)]),
                         ("position", .latLng 0 0)], listeners := [] } ∧
      (JSValue.point .undef .undef ≠ .num 5) :=
  ⟨rfl, fun h => JSValue.noConfusion h⟩

/-- C2 amended: the marker factory coerces the `anchor`/`origin`/`size`/
`scaledSize` icon sub-fields unconditionally — whatever the value's shape,
it is replaced by a point (resp. dimension) built from the value's indices
0 and 1 (throwing on `null`/`undefined` values) — and only sub-fields with
other names (besides `path`) are left unchanged. -/
theorem C2_amended_unconditional_coercion (options : Obj) (events : List (String × Nat))
    (m : Marker) (iconFields : Obj)
    (hicon : objGet options "icon" = .obj iconFields)
    (hm : getMarker options events = .ok m) :
    ∃ fs, markerGet m "icon" = .obj fs ∧
      (∀ v a b, objGet iconFields "anchor" = v →
        jsIndex v 0 = .ok a → jsIndex v 1 = .ok b →
        objGet fs "anchor" = .point a b) ∧
      (∀ v a b, objGet iconFields "origin" = v →
        jsIndex v 0 = .ok a → jsIndex v 1 = .ok b →
        objGet fs "origin" = .point a b) ∧
      (∀ v a b, objGet iconFields "size" = v →
        jsIndex v 0 = .ok a → jsIndex v 1 = .ok b →
        objGet fs "size" = .size a b) ∧
      (∀ v a b, objGet iconFields "scaledSize" = v →
        jsIndex v 0 = .ok a → jsIndex v 1 = .ok b →
        objGet fs "scaledSize" = .size a b) ∧
      (∀ k, k ≠ "anchor" → k ≠ "origin" → k ≠ "size" → k ≠ "scaledSize" → k ≠ "path" →
        objGet fs k = objGet iconFields k) := by
  obtain ⟨fs, hco, hmi⟩ := markerGet_icon_obj options events m iconFields hicon hm
  refine ⟨fs, hmi, ?_, ?_, ?_, ?_, ?_⟩
  · intro v a b hval h0 h1
    have h := coerceIconFields_objGet_of_ne_undef iconFields fs "anchor" hco (by decide)
      (by rw [hval]; exact jsIndex_not_undef v 0 a h0)
    rw [hval, coerceIconField_anchor_origin "anchor" v a b (.inl rfl) h0 h1] at h
    injection h with h'
    exact h'.symm
  · intro v a b hval h0 h1
    have h := coerceIconFields_objGet_of_ne_undef iconFields fs "origin" hco (by decide)
      (by rw [hval]; exact jsIndex_not_undef v 0 a h0)
    rw [hval, coerceIconField_anchor_origin "origin" v a b (.inr rfl) h0 h1] at h
    injection h with h'
    exact h'.symm
  · intro v a b hval h0 h1
    have h := coerceIconFields_objGet_of_ne_undef iconFields fs "size" hco (by decide)
      (by rw [hval]; exact jsIndex_not_undef v 0 a h0)
    rw [hval, coerceIconField_size_scaledSize "size" v a b (.inl rfl) (by simp) h0 h1] at h
    injection h with h'
    exact h'.symm
  · intro v a b hval h0 h1
    have h := coerceIconFields_objGet_of_ne_undef iconFields fs "scaledSize" hco (by decide)
      (by rw [hval]; exact jsIndex_not_undef v 0 a h0)
    rw [hval, coerceIconField_size_scaledSize "scaledSize" v a b (.inr rfl) (by simp) h0 h1] at h
    injection h with h'
    exact h'.symm
  · intro k k1 k2 k3 k4 k5
    have hs := substitutePath_objGet_ne iconFields k k5
    rcases coerceIconFields_objGet _ _ hco k with ⟨h1, h2⟩ | h2
    · rw [h2, ← hs, h1]
    · rw [coerceIconField_other k _ k1 k2 k3 k4] at h2
      injection h2 with h'
      rw [← h', hs]

/-- C2 amended witness: `anchor: 5` becomes `Point(undefined, undefined)`
and the unrelated sub-field `labelOrigin` stays untouched. -/
theorem C2_amended_unconditional_coercion_witness :
    objGet [("icon", .obj [("anchor", .num 5), ("labelOrigin", .str "q")])] "icon" =
        .obj [("anchor", .num 5), ("labelOrigin", .str "q")] ∧
      getMarker [("icon", .obj [("anchor", .num 5), ("labelOrigin", .str "q")])] [] =
        .ok { values := [("icon", .obj [("anchor", .point .undef .undef),
                                        ("labelOrigin", .str "q")]),
                         ("position", .latLng 0 0)], listeners := [] } ∧
      ∃ fs, markerGet { values := [("icon", .obj [("anchor", .point .undef .undef),
                                                  ("labelOrigin", .str "q")]),
                                   ("position", .latLng 0 0)], listeners := [] } "icon" =
          .obj fs ∧
        (∀ v a b, objGet [("anchor", .num 5), ("labelOrigin", .str "q")] "anchor" = v →
          jsIndex v 0 = .ok a → jsIndex v 1 = .ok b →
          objGet fs "anchor" = .point a b) ∧
        (∀ v a b, objGet [("anchor", .num 5), ("labelOrigin", .str "q")] "origin" = v →
          jsIndex v 0 = .ok a → jsIndex v 1 = .ok b →
          objGet fs "origin" = .point a b) ∧
        (∀ v a b, objGet [("anchor", .num 5), ("labelOrigin", .str "q")] "size" = v →
          jsIndex v 0 = .ok a → jsIndex v 1 = .ok b →
          objGet fs "size" = .size a b) ∧
        (∀ v a b, objGet [("anchor", .num 5), ("labelOrigin", .str "q")] "scaledSize" = v →
          jsIndex v 0 = .ok a → jsIndex v 1 = .ok b →
          objGet fs "scaledSize" = .size a b) ∧
        (∀ k, k ≠ "anchor" → k ≠ "origin" → k ≠ "size" → k ≠ "scaledSize" → k ≠ "path" →
          objGet fs k = objGet [("anchor", .num 5), ("labelOrigin", .str "q")] k) :=
  ⟨rfl, rfl,
    C2_amended_unconditional_coercion
      [("icon", .obj [("anchor", .num 5), ("labelOrigin", .str "q")])] []
      { values := [("icon", .obj [("anchor", .point .undef .undef),
                                  ("labelOrigin", .str "q")]),
                   ("position", .latLng 0 0)], listeners := [] }
      [("anchor", .num 5), ("labelOrigin", .str "q")] rfl rfl⟩

theorem exceptErrorBind {α β : Type} (e : Unit) (f : α → Except Unit β) :
    (Except.error e >>= f : Except Unit β) = .error e := rfl

theorem isUndef_eq_undef (v : JSValue) (h : isUndef v = true) : v = .undef := by
  cases v <;> first | rfl | cases h

/-! ### C9 — destroy handler -/

/-- C9: on element destruction the directive invokes the map controller's
delete operation on the `markers` collection with the created marker,
exactly once — the `$destroy` trace is that single call, whatever the
options (in particular whether or not a geocode lookup is pending). -/
theorem C9_destroy_deletes_marker_once (markerOptions : Obj)
    (markerEvents : List (String × Nat)) (geoCallback : Option String) (r : LinkResult)
    (h : linkFunc markerOptions markerEvents geoCallback = .ok r) :
    r.destroyEffects = [.deleteObject "markers" r.marker] :=
  (linkFunc_ok_parts markerOptions markerEvents geoCallback r h).2.2.2.1

/-- C9 witness: a link with a pending geocode (address position) still tears
down with exactly one `deleteObject('markers', marker)`. -/
theorem C9_destroy_deletes_marker_once_witness :
    ∃ r, linkFunc [("position", .str "pending address")] [] none = .ok r ∧
      r.destroyEffects = [.deleteObject "markers" r.marker] :=
  ⟨_, rfl, C9_destroy_deletes_marker_once [("position", .str "pending address")] [] none _ rfl⟩

/-! ### C3 — position/geocode flow -/

/-- C3 counterexample: the empty address string is an address (it is not a
`LatLng`), yet no geocode call is made for it — `if (address)` is false for
`""` — so the link effects contain no `geocodeCall`, contradicting the
claim that the geocoding operation is invoked with exactly that string. -/
theorem C3_counterexample_empty_address_no_geocode :
    (linkFunc [("position", .str "")] [] (some "cb()")).map (fun r => r.linkEffects) =
      .ok [.addObject "markers" { values := [("position", .latLng 0 0)], listeners := [] },
           .observeAttrSetObj] := rfl

/-- C3 amended: if the parsed position is a resolved coordinate, the marker
is built at that coordinate and geocoding is never invoked; if the parsed
position is a non-empty address string, the marker is built at `(0, 0)`,
geocoding is invoked with exactly that string, and upon resolution the
marker's position is set, the zoom-to-include-markers operation runs, and a
supplied non-empty geo-callback expression is evaluated exactly once. -/
theorem C3_amended_geocode_flow (markerOptions : Obj) (markerEvents : List (String × Nat))
    (geoCallback : Option String) (r : LinkResult)
    (h : linkFunc markerOptions markerEvents geoCallback = .ok r) :
    (∀ la lo : Rat, objGet markerOptions "position" = .latLng la lo →
      markerGet r.marker "position" = .latLng la lo ∧
      r.linkEffects = [.addObject "markers" r.marker, .observeAttrSetObj]) ∧
    (∀ s : String, s ≠ "" → objGet markerOptions "position" = .str s →
      markerGet r.marker "position" = .latLng 0 0 ∧
      r.linkEffects =
        [.addObject "markers" r.marker, .geocodeCall (.str s), .observeAttrSetObj] ∧
      ∀ ll, r.onGeocodeResolved ll =
        [.setPosition ll, .zoomToIncludeMarkers] ++
          (match geoCallback with
           | some expr => if expr ≠ "" then [.evalGeoCallback expr] else []
           | none => [])) := by
  obtain ⟨hgm, hle, hgeo, -, -, -⟩ :=
    linkFunc_ok_parts markerOptions markerEvents geoCallback r h
  constructor
  · intro la lo hpos
    constructor
    · obtain ⟨o1, hni, hv, -⟩ := getMarker_ok _ _ _ hgm
      have h1 : objGet o1 "position" = .latLng la lo := by
        rw [normalizeIcon_objGet_ne _ _ _ hni (by decide), hpos]
      unfold markerGet
      rw [hv, bridgeZIndex_objGet_ne _ _ (by decide),
        defaultPosition_of_latLng o1 (by rw [h1]; rfl), h1]
    · rw [hle]
      unfold linkEffectsOf pendingAddress
      rw [hpos]
      simp [isLatLng, truthy]
  · intro s hs hpos
    have haddr : pendingAddress markerOptions = .str s := by
      unfold pendingAddress
      rw [hpos]
      rfl
    have htr : truthy (.str s) = true := by simp [truthy, hs]
    refine ⟨?_, ?_, ?_⟩
    · exact getMarker_position_origin _ _ _ (by rw [hpos]; rfl) hgm
    · rw [hle, haddr]
      unfold linkEffectsOf
      rw [htr]
      rfl
    · intro ll
      rw [hgeo, haddr]
      unfold geocodeResolvedEffects
      rw [htr]
      cases geoCallback <;> simp

/-- C3 amended witness: position `"the cn tower"` with callback `"cb()"`:
marker at the origin, a geocode call with the string, and on resolution at
`(43.6426, -79.3871)` the reposition, zoom and one callback evaluation. -/
theorem C3_amended_geocode_flow_witness :
    ∃ r, linkFunc [("position", .str "the cn tower")] [] (some "cb()") = .ok r ∧
      markerGet r.marker "position" = .latLng 0 0 ∧
      r.linkEffects =
        [.addObject "markers" r.marker, .geocodeCall (.str "the cn tower"),
         .observeAttrSetObj] ∧
      r.onGeocodeResolved (43.6426, -79.3871) =
        [.setPosition (43.6426, -79.3871), .zoomToIncludeMarkers,
         .evalGeoCallback "cb()"] := by
  refine ⟨_, rfl, ?_⟩
  obtain ⟨-, h2⟩ :=
    C3_amended_geocode_flow [("position", .str "the cn tower")] [] (some "cb()") _ rfl
  obtain ⟨hp, he, hg⟩ := h2 "the cn tower" (by decide) rfl
  refine ⟨hp, he, ?_⟩
  rw [hg (43.6426, -79.3871)]
  simp

/-! ### C1 — customlabel linking can throw -/

/-- C1 failing input: with `customlabel` supplied and no `icon` option, the
label construction reads `marker.icon.fillColor` on an `undefined`
`marker.icon` and throws a TypeError, so the link does not complete — the
embedded link evaluates to an error at this input. -/
theorem C1_customlabel_without_icon_throws :
    linkFunc [("customlabel", .obj [("text", .str "hello")])] [] none = .error () := rfl

/-! ### C10 — defaults apply to falsy supplied values -/

/-- C10: the customlabel defaults are applied through JS `||`, so an
explicitly supplied falsy value is also replaced: `fillOpacity: 0` and
`strokeWeight: 0` yield a label with `fillOpacity = 1` and
`strokeWeight = 1`, not the supplied zeros. -/
theorem C10_falsy_customlabel_values_defaulted :
    (linkFunc [("customlabel", .obj [("text", .str "t"), ("fillOpacity", .num 0),
                                     ("strokeWeight", .num 0)]),
               ("icon", .obj [])] [] none).map
        (fun r => r.label.map fun l => (l.fillOpacity, l.strokeWeight)) =
      .ok (some (.num 1, .num 1)) := rfl

/-! ### C4 — customlabel defaults -/

theorem mkMarkerLabel_text_only (t : JSValue) (marker : Marker) (l : MarkerLabel)
    (h : mkMarkerLabel (.obj [("text", t)]) marker = .ok l) :
    ∃ fc, getField (markerGet marker "icon") "fillColor" = .ok fc ∧
      l = { text := t, color := .str "#000000", fillColor := .str "#ffffff",
            fillOpacity := .num 1, strokeColor := .str "#ffffff",
            strokeWeight := .num 1,
            zIndex := jsOr (markerGet marker "zIndex") (.str "auto"),
            backgroundColor := jsOr fc (.str "transparent") } := by
  cases hfc : getField (markerGet marker "icon") "fillColor" with
  | error e =>
      rw [show mkMarkerLabel (.obj [("text", t)]) marker = .error e from by
        unfold mkMarkerLabel
        rw [hfc]
        rfl] at h
      cases h
  | ok fc =>
      refine ⟨fc, rfl, ?_⟩
      rw [show mkMarkerLabel (.obj [("text", t)]) marker =
          .ok { text := t, color := .str "#000000", fillColor := .str "#ffffff",
                fillOpacity := .num 1, strokeColor := .str "#ffffff",
                strokeWeight := .num 1,
                zIndex := jsOr (markerGet marker "zIndex") (.str "auto"),
                backgroundColor := jsOr fc (.str "transparent") } from by
        unfold mkMarkerLabel
        rw [hfc]
        rfl] at h
      injection h with h'
      exact h'.symm

/-- C4: for every customlabel object in which only the `text` field is set,
the constructed label's color is `#000000`, fillColor `#ffffff`,
fillOpacity `1`, strokeColor `#ffffff`, strokeWeight `1`; its z-index falls
back to the literal token `auto` when the marker has no z-index; and its
background color falls back to the marker icon's `fillColor` or
`transparent` (the JS `||` of the two). -/
theorem C4_customlabel_text_only_defaults (markerOptions : Obj)
    (markerEvents : List (String × Nat)) (geoCallback : Option String)
    (r : LinkResult) (t : JSValue)
    (hcl : objGet markerOptions "customlabel" = .obj [("text", t)])
    (hz1 : isUndef (objGet markerOptions "zIndex") = true)
    (hz2 : isUndef (objGet markerOptions "zindex") = true)
    (h : linkFunc markerOptions markerEvents geoCallback = .ok r) :
    ∃ l, r.label = some l ∧ l.text = t ∧
      l.color = .str "#000000" ∧ l.fillColor = .str "#ffffff" ∧
      l.fillOpacity = .num 1 ∧ l.strokeColor = .str "#ffffff" ∧
      l.strokeWeight = .num 1 ∧ l.zIndex = .str "auto" ∧
      ∃ fc, getField (markerGet r.marker "icon") "fillColor" = .ok fc ∧
        l.backgroundColor = jsOr fc (.str "transparent") := by
  obtain ⟨hgm, -, -, -, -, hlabel⟩ :=
    linkFunc_ok_parts markerOptions markerEvents geoCallback r h
  have hclm : markerGet r.marker "customlabel" = .obj [("text", t)] := by
    rw [getMarker_objGet_other _ _ _ hgm "customlabel" (by decide) (by decide) (by decide),
      hcl]
  have hzm : markerGet r.marker "zIndex" = .undef := by
    obtain ⟨o1, hni, hv, -⟩ := getMarker_ok _ _ _ hgm
    have e1 : objGet (defaultPosition o1) "zindex" = objGet markerOptions "zindex" := by
      rw [defaultPosition_objGet_ne _ _ (by decide),
        normalizeIcon_objGet_ne _ _ _ hni (by decide)]
    unfold markerGet
    rw [hv, bridgeZIndex_noop_of_zindex_undef _ (by rw [e1]; exact hz2),
      defaultPosition_objGet_ne _ _ (by decide),
      normalizeIcon_objGet_ne _ _ _ hni (by decide)]
    exact isUndef_eq_undef _ hz1
  obtain ⟨l, hml, hsl⟩ := hlabel (by rw [hclm]; rfl)
  rw [hclm] at hml
  obtain ⟨fc, hfc, hl⟩ := mkMarkerLabel_text_only t r.marker l hml
  refine ⟨l, hsl, ?_, ?_, ?_, ?_, ?_, ?_, ?_, fc, hfc, ?_⟩
  · rw [hl]
  · rw [hl]
  · rw [hl]
  · rw [hl]
  · rw [hl]
  · rw [hl]
  · rw [hl, hzm]
    rfl
  · rw [hl]

/-- C4 witness: `customlabel: {text: "hi"}` with an (empty-object) icon and
no z-index fields: all five defaults, z-index `auto` and background
`transparent`. -/
theorem C4_customlabel_text_only_defaults_witness :
    ∃ r, linkFunc [("customlabel", .obj [("text", .str "hi")]), ("icon", .obj [])]
        [] none = .ok r ∧
      ∃ l, r.label = some l ∧ l.text = .str "hi" ∧
        l.color = .str "#000000" ∧ l.fillColor = .str "#ffffff" ∧
        l.fillOpacity = .num 1 ∧ l.strokeColor = .str "#ffffff" ∧
        l.strokeWeight = .num 1 ∧ l.zIndex = .str "auto" ∧
        ∃ fc, getField (markerGet r.marker "icon") "fillColor" = .ok fc ∧
          l.backgroundColor = jsOr fc (.str "transparent") :=
  ⟨_, rfl, C4_customlabel_text_only_defaults
    [("customlabel", .obj [("text", .str "hi")]), ("icon", .obj [])] [] none _ (.str "hi")
    rfl rfl rfl rfl⟩
